import Mathlib

/-!
Shallow embedding of the lago-azul rainfall application
(CSV ingestion service, forecast service, REST forecast endpoints,
bulk upsert CLI command), with theorems checking the specification
claims against the code.

Conventions of the embedding:
* machine floats of the source are modelled as exact rationals (ℚ);
* datetimes are integer seconds (`Time`); calendar dates are triples;
* file and database effects are supplied through an explicit
  environment (`Env`), and Python exceptions are `Except` errors;
* the contents of a forecast cache file are modelled at the level of
  the parsed JSON document (`CacheDoc`), not raw bytes.
-/

namespace LagoAzul

/-- Seconds, as an absolute timestamp or a duration (timedelta). -/
abbrev Time := Int

def secondsPerDay : Int := 86400

/-- `CACHE_LIFETIME_DAYS = 7` from forecast_service.py. -/
def CACHE_LIFETIME_DAYS : Int := 7

/-- `MINIMUM_DATA_POINTS = 3 * 12` from forecast_service.py. -/
def MINIMUM_DATA_POINTS : Nat := 3 * 12

/-! Character-level models of the Python string operations used by
the source (`str.lower`, `str.strip`, `str.replace`, `str.split`,
and the substring test `in`). They are structural recursions over
`String.data`, so concrete instances evaluate. -/

/-- ASCII case folding of one character (`str.lower`, restricted to
the ASCII range used by the stored city names). -/
def lowerChar (c : Char) : Char :=
  if 'A' ≤ c && c ≤ 'Z' then Char.ofNat (c.toNat + 32) else c

/-- `s.lower()`. -/
def pyLower (s : String) : String := ⟨s.data.map lowerChar⟩

/-- Strip leading and trailing whitespace from a character list. -/
def stripChars (cs : List Char) : List Char :=
  ((cs.dropWhile Char.isWhitespace).reverse.dropWhile Char.isWhitespace).reverse

/-- `s.strip()`. -/
def pyStrip (s : String) : String := ⟨stripChars s.data⟩

/-- `s.replace(old, new)` for one-character `old`/`new`. -/
def pyReplaceChar (s : String) (oldc newc : Char) : String :=
  ⟨s.data.map fun c => if c == oldc then newc else c⟩

/-- Does `pat` occur as a prefix of `cs`? -/
def prefixChars : List Char → List Char → Bool
  | [], _ => true
  | _ :: _, [] => false
  | p :: ps, c :: cs => p == c && prefixChars ps cs

/-- Does `pat` occur as a contiguous sublist of `cs`? -/
def occursChars (pat : List Char) : List Char → Bool
  | [] => prefixChars pat []
  | c :: cs => prefixChars pat (c :: cs) || occursChars pat cs

/-- Python's substring test `pat in s`. -/
def containsSub (s pat : String) : Bool := occursChars pat.data s.data

/-- `s.split(';')`. -/
def splitSemi : List Char → List (List Char)
  | [] => [[]]
  | c :: cs =>
    if c == ';' then [] :: splitSemi cs
    else
      match splitSemi cs with
      | [] => [[c]]
      | h :: t => (c :: h) :: t

/-- A calendar date (year, month 1..12, day). -/
structure Date where
  year : Nat
  month : Nat
  day : Nat
deriving Repr, DecidableEq

/-- Index of the calendar month on the month axis (used by the
monthly resampling: consecutive months have consecutive indices). -/
def Date.monthIdx (d : Date) : Nat := d.year * 12 + (d.month - 1)

/-- Month-of-year (1..12) of a point on the month axis. -/
def monthOfIdx (idx : Nat) : Nat := idx % 12 + 1

/-- One persisted rainfall record (`PluviometricData` in models.py);
the surrogate id is omitted, it plays no role in any claim. -/
structure DailyRecord where
  data : Date
  precipitacao_mm : ℚ
  cidade : String
  estado : String
  estacao_codigo : String
deriving Repr, DecidableEq

/-- One row of the forecast table built by
`generate_forecast_for_city`; `date` is the month index of the
forecast target month. -/
structure ForecastRow where
  date : Nat
  predicted_mm : ℚ
  conf_int_lower : ℚ
  conf_int_upper : ℚ
  tendencia : String
deriving Repr, DecidableEq

/-- The parsed JSON cache document written by the forecast service. -/
structure CacheDoc where
  city : String
  hist_start : Nat
  hist_end : Nat
  forecast : List ForecastRow
  generated_at : Time
deriving Repr, DecidableEq

/-- Faults the Python runtime can raise at the effect boundaries. -/
inductive Fault where
  | ioError
  | jsonError
  | dbError
  | modelError
deriving Repr, DecidableEq

/-- Errors raised by `_load_and_prepare_data` (both are `ValueError`
in the source; we keep the two messages apart). -/
inductive LoadErr where
  | notFound (city : String)
  | insufficientData (required actual : Nat)
deriving Repr, DecidableEq

/-- `df['precipitacao_mm'].resample('MS').sum()`: monthly bins from
the first to the last observed month inclusive, summing the daily
values that fall in each bin (empty bins sum to 0). -/
def resampleMS (rows : List (Date × ℚ)) : List (Nat × ℚ) :=
  match rows with
  | [] => []
  | r :: rs =>
    let idxs := (r :: rs).map (fun p => p.1.monthIdx)
    let lo := idxs.foldl min r.1.monthIdx
    let hi := idxs.foldl max r.1.monthIdx
    (List.range (hi - lo + 1)).map fun k =>
      (lo + k, (((r :: rs).filter (fun p => p.1.monthIdx == lo + k)).map Prod.snd).sum)

/-- `_load_and_prepare_data`: select the city's (date, mm) pairs
case-insensitively, fail when empty, resample to month totals, fail
when fewer than `MINIMUM_DATA_POINTS` monthly points remain. -/
def load_and_prepare_data (records : List DailyRecord) (city_name : String) :
    Except LoadErr (List (Nat × ℚ)) :=
  let rows := records.filter (fun r => pyLower r.cidade == pyLower city_name)
  if rows.isEmpty then
    .error (.notFound city_name)
  else
    let monthly_series := resampleMS (rows.map fun r => (r.data, r.precipitacao_mm))
    if monthly_series.length < MINIMUM_DATA_POINTS then
      .error (.insufficientData MINIMUM_DATA_POINTS monthly_series.length)
    else
      .ok monthly_series

/-- `monthly_series.groupby(monthly_series.index.month).mean()`
followed by `.get(month, 0)`: the mean of the monthly totals whose
month-of-year equals `month`, and 0 when that month never occurs. -/
def historicalMonthlyAvg (series : List (Nat × ℚ)) (month : Nat) : ℚ :=
  let vals := (series.filter (fun p => monthOfIdx p.1 == month)).map Prod.snd
  if vals.length = 0 then 0 else vals.sum / vals.length

/-- The `get_trend` closure of `generate_forecast_for_city`. -/
def get_trend (series : List (Nat × ℚ)) (month : Nat) (prediction : ℚ) : String :=
  let historical_avg := historicalMonthlyAvg series month
  if historical_avg = 0 then "Sem referência histórica"
  else if prediction > historical_avg * 1.15 then "Acima da média histórica"
  else if prediction < historical_avg * 0.85 then "Abaixo da média histórica"
  else "Dentro da média histórica"

/-- First month index of the monthly series
(`monthly_series.index.min()`; the series is ascending). -/
def seriesFirst (series : List (Nat × ℚ)) : Nat := (series.headD (0, 0)).1

/-- Last month index of the monthly series
(`monthly_series.index.max()` = `monthly_series.index[-1]`). -/
def seriesLast (series : List (Nat × ℚ)) : Nat := (series.getLastD (0, 0)).1

instance {ε α : Type} [DecidableEq ε] [DecidableEq α] :
    DecidableEq (Except ε α) := fun a b =>
  match a, b with
  | .error e1, .error e2 => decidable_of_iff (e1 = e2) (by simp)
  | .ok x, .ok y => decidable_of_iff (x = y) (by simp)
  | .error _, .ok _ => isFalse (by simp)
  | .ok _, .error _ => isFalse (by simp)

/-- The effect environment of one `generate_forecast_for_city` call:
what the cache file, the database, the model library and the cache
write would do if invoked.
* `cacheFile`: `none` when `os.path.exists` is false; `some (.error f)`
  when the file exists but reading/parsing it raises `f`;
  `some (.ok doc)` when it reads fine.
* `db`: the database query outcome (`.error` = unexpected db fault).
* `fitPredict`: outcome of `auto_arima` + `model.predict`: the raw
  point forecasts and the confidence-interval pairs.
* `writeFault`: `some f` when the cache write — `open(cache_path, 'w')`
  followed by `json.dump` — raises `f` mid-write. -/
structure Env where
  cacheFile : Option (Except Fault CacheDoc)
  now : Time
  db : Except Fault (List DailyRecord)
  fitPredict : Except Fault (List ℚ × List (ℚ × ℚ))
  writeFault : Option Fault
deriving Repr, DecidableEq

/-- Outcome of one call, with the effects it performed.
`result = none` is the soft `return None` of the source.
`cacheWritten` is the complete document when the dump finished;
`cachePartial` is true when the write faulted after
`open(cache_path, 'w')` had already truncated the file, so a
partial cache file is left behind. -/
structure GenResult where
  result : Option (List ForecastRow)
  dbLoaded : Bool
  modelRun : Bool
  cacheWritten : Option CacheDoc
  cachePartial : Bool := false
deriving Repr, DecidableEq

/-- The raw forecast table before post-processing
(`pd.DataFrame({'date', 'predicted_mm', 'conf_int_lower', 'conf_int_upper'})`). -/
def buildRows (start n_months : Nat) (pred : List ℚ) (conf : List (ℚ × ℚ)) :
    List ForecastRow :=
  (List.range n_months).map fun k =>
    { date := start + k
      predicted_mm := pred.getD k 0
      conf_int_lower := (conf.getD k (0, 0)).1
      conf_int_upper := (conf.getD k (0, 0)).2
      tendencia := "" }

/-- The mandatory post-processing: clip `predicted_mm` and
`conf_int_lower` at 0, then label each row with `get_trend` applied
to the clipped prediction and the row's month-of-year. -/
def applyCorrections (series : List (Nat × ℚ)) (rows : List ForecastRow) :
    List ForecastRow :=
  rows.map fun r =>
    let p := max 0 r.predicted_mm
    { r with
      predicted_mm := p
      conf_int_lower := max 0 r.conf_int_lower
      tendencia := get_trend series (monthOfIdx r.date) p }

/-- The regeneration path of `generate_forecast_for_city` (the body
of its `try`): load and validate history, run the model search,
build and post-process the table, write the cache document. Every
fault inside the `try` is caught (`except ValueError` /
`except Exception`) and becomes the soft `result = none`. The cache
write is `open(cache_path, 'w')` then `json.dump`: the open
truncates the file first, so a fault raised during the dump, though
caught, leaves a truncated/partial cache file (`cachePartial`);
faults at the earlier stages never reach the open and leave the
cache file untouched. -/
def regenerate (env : Env) (city_name : String) (n_months : Nat) : GenResult :=
  match env.db with
  | .error _ => { result := none, dbLoaded := true, modelRun := false, cacheWritten := none }
  | .ok records =>
    match load_and_prepare_data records city_name with
    | .error _ => { result := none, dbLoaded := true, modelRun := false, cacheWritten := none }
    | .ok monthly_series =>
      match env.fitPredict with
      | .error _ => { result := none, dbLoaded := true, modelRun := true, cacheWritten := none }
      | .ok (forecast, conf_int) =>
        let start := seriesLast monthly_series + 1
        let rows := applyCorrections monthly_series
          (buildRows start n_months forecast conf_int)
        let doc : CacheDoc :=
          { city := city_name
            hist_start := seriesFirst monthly_series
            hist_end := seriesLast monthly_series
            forecast := rows
            generated_at := env.now }
        match env.writeFault with
        | some _ => { result := none, dbLoaded := true, modelRun := true,
                      cacheWritten := none, cachePartial := true }
        | none => { result := some rows, dbLoaded := true, modelRun := true,
                    cacheWritten := some doc }

/-- `generate_forecast_for_city`. The cache check precedes the
`try`, so a fault while reading an existing cache file is the one
fault that escapes to the caller (`Except.error`). A fresh cache
(age strictly below 7 days) is returned as-is; a stale one falls
through to `regenerate`. -/
def generate_forecast_for_city (env : Env) (city_name : String)
    (n_months : Nat) (force_regenerate : Bool) : Except Fault GenResult :=
  match (if force_regenerate then none else env.cacheFile) with
  | some (.error f) => .error f
  | some (.ok cache_data) =>
    if env.now - cache_data.generated_at < CACHE_LIFETIME_DAYS * secondsPerDay then
      .ok { result := some cache_data.forecast, dbLoaded := false,
            modelRun := false, cacheWritten := none }
    else
      .ok (regenerate env city_name n_months)
  | none => .ok (regenerate env city_name n_months)

/-! REST forecast endpoints (routes.py). -/

/-- `city_name.lower().replace(' ', '_').replace('/', '_')`. -/
def normalizeCity (city_name : String) : String :=
  pyReplaceChar (pyReplaceChar (pyLower city_name) ' ' '_') '/' '_'

/-- `os.path.join(instance_path, f"{safe_city_name}_forecast.json")`. -/
def cachePathOf (instance_path city_name : String) : String :=
  instance_path ++ "/" ++ normalizeCity city_name ++ "_forecast.json"

/-- The JSON body of an endpoint response. -/
inductive ApiBody where
  | doc (d : CacheDoc)
  | info (error message : String)
  | created (status message cache_path : String)
deriving Repr, DecidableEq

/-- An HTTP status code paired with the response body. -/
abbrev ApiResponse := Nat × ApiBody

/-- The guidance message of the 404 forecast response. -/
def guidanceMessage (city_name : String) : String :=
  "Execute o comando flask generate-forecast " ++ city_name ++
    " no servidor para gerá-la."

/-- `GET /forecast/by-city/<city_name>`: `fs` maps a path to the
parsed document stored there (`none` = no such file). The route only
tests existence and reads the file; it takes no clock and calls no
generation. -/
def get_forecast (fs : String → Option CacheDoc)
    (instance_path city_name : String) : ApiResponse :=
  let cache_path := cachePathOf instance_path city_name
  match fs cache_path with
  | none => (404, .info "Previsão não encontrada." (guidanceMessage city_name))
  | some forecast_data => (200, .doc forecast_data)

/-- `POST /forecast/by-city/<city_name>`: calls the service with
`force_regenerate=True`; `None` becomes 400, success becomes 201,
an escaped exception becomes 500. -/
def create_or_update_forecast (env : Env) (instance_path city_name : String) :
    ApiResponse :=
  let cache_path := cachePathOf instance_path city_name
  match generate_forecast_for_city env city_name 12 true with
  | .error _ => (500, .info "error" "Ocorreu um erro interno.")
  | .ok r =>
    match r.result with
    | none =>
      (400, .info "Não foi possível gerar a previsão."
        ("Verifique se existem dados suficientes para a cidade " ++ city_name ++ "."))
    | some _ =>
      (201, .created "success"
        ("Previsão para " ++ city_name ++ " foi gerada e salva com sucesso.")
        cache_path)

/-! CSV ingestion service (ingest_service.py). -/

/-- The station metadata accumulated by the header scan. -/
structure Metadata where
  cidade : Option String := none
  estado : Option String := none
  estacao_codigo : Option String := none
deriving Repr, DecidableEq

/-- `line.split(';')[1].strip()`; the missing-field case is Python's
`IndexError`, which the surrounding `except` turns into a skipped
file. -/
def splitVal (line : String) : Except Unit String :=
  match (splitSemi line.data).get? 1 with
  | some v => .ok ⟨stripChars v⟩
  | none => .error ()

/-- The `if 'ESTAÇÃO:' in line / elif 'UF:' / elif 'CODIGO (WMO):'`
chain applied to one header line. -/
def scanMetaLine (m : Metadata) (line : String) : Except Unit Metadata :=
  if containsSub line "ESTAÇÃO:" then
    match splitVal line with
    | .ok v => .ok { m with cidade := some v }
    | .error e => .error e
  else if containsSub line "UF:" then
    match splitVal line with
    | .ok v => .ok { m with estado := some v }
    | .error e => .error e
  else if containsSub line "CODIGO (WMO):" then
    match splitVal line with
    | .ok v => .ok { m with estacao_codigo := some v }
    | .error e => .error e
  else
    .ok m

/-- The metadata loop of `_process_single_file`:
`for i, line in enumerate(f): <scan line>; if i > 8: break`.
The break test runs after the line has been scanned. -/
def scanMeta : List String → Nat → Metadata → Except Unit Metadata
  | [], _, m => .ok m
  | line :: rest, i, m =>
    match scanMetaLine m line with
    | .error e => .error e
    | .ok m1 => if i > 8 then .ok m1 else scanMeta rest (i + 1) m1

/-- One parsed cell of the precipitation column: a number, or a
missing value (pandas `NaN`, e.g. an empty source cell). -/
inductive CsvCell where
  | num (q : ℚ)
  | missing
deriving Repr, DecidableEq

/-- One parsed body row of a source CSV (its date cell and its
precipitation cell, after column selection). -/
structure BodyRow where
  data : Date
  precip : CsvCell
deriving Repr, DecidableEq

/-- A body row after cleaning, with a definite numeric reading. -/
structure CleanRow where
  data : Date
  precipitacao_mm : ℚ
deriving Repr, DecidableEq

/-- `df_clean.replace(-9999, np.nan)` followed by
`df_clean['precipitacao_mm'].fillna(0)`: the sentinel becomes `NaN`
and every `NaN` becomes 0; other numbers pass through. -/
def cleanReading : CsvCell → ℚ
  | .num q => if q = -9999 then 0 else q
  | .missing => 0

/-- Cleaning applied to the whole body. -/
def cleanRows (rows : List BodyRow) : List CleanRow :=
  rows.map fun r => { data := r.data, precipitacao_mm := cleanReading r.precip }

/-- `df_clean.groupby('data').agg(precipitacao_mm=('precipitacao_mm', 'sum'))`:
one output row per distinct date, carrying the sum of that date's
readings. -/
def aggregateDaily (rows : List CleanRow) : List (Date × ℚ) :=
  ((rows.map (fun r => r.data)).dedup).map fun d =>
    (d, ((rows.filter (fun r => r.data == d)).map (fun r => r.precipitacao_mm)).sum)

/-- The cleaning-and-aggregation stage of `_process_single_file`
applied to one file's parsed body. -/
def processFileBody (body : List BodyRow) : List (Date × ℚ) :=
  aggregateDaily (cleanRows body)

/-- `process_and_consolidate_data` restricted to the (date, mm)
columns: the concatenation of every file's per-file output. -/
def consolidate (files : List (List BodyRow)) : List (Date × ℚ) :=
  (files.map processFileBody).flatten

/-! Bulk upsert of the `ingest-data` CLI command
(backend/app/__init__.py), over the unique key (data, estacao_codigo). -/

/-- Equality on the (date, station_code) unique key
(`UniqueConstraint('data', 'estacao_codigo')` in models.py). -/
def sameKey (a b : DailyRecord) : Bool :=
  a.data == b.data && a.estacao_codigo == b.estacao_codigo

/-- The PostgreSQL `INSERT ... ON CONFLICT (data, estacao_codigo) DO
NOTHING` over the stored records: rows are inserted in order, and a
row whose key collides with a stored row (or an earlier row of the
same statement) is skipped. -/
def bulk_upsert (store rows : List DailyRecord) : List DailyRecord :=
  rows.foldl
    (fun acc r => if acc.any (fun s => sameKey s r) then acc else acc ++ [r])
    store

/-! Theorems on the claims. -/

/-- C1: with `force_regenerate` false, a cache file whose generation
timestamp is strictly less than 7 days old makes
`generate_forecast_for_city` return the cached forecast table
unchanged, with neither the database load nor the model search
invoked; a cache 7 days old or older falls through to full
regeneration. -/
theorem fresh_cache_returned_stale_cache_regenerates
    (env : Env) (city_name : String) (n_months : Nat) (doc : CacheDoc)
    (hfile : env.cacheFile = some (.ok doc)) :
    (env.now - doc.generated_at < CACHE_LIFETIME_DAYS * secondsPerDay →
      generate_forecast_for_city env city_name n_months false =
        .ok { result := some doc.forecast, dbLoaded := false,
              modelRun := false, cacheWritten := none }) ∧
    (CACHE_LIFETIME_DAYS * secondsPerDay ≤ env.now - doc.generated_at →
      generate_forecast_for_city env city_name n_months false =
        .ok (regenerate env city_name n_months)) := by
  constructor
  · intro hage
    simp [generate_forecast_for_city, hfile, hage]
  · intro hage
    simp [generate_forecast_for_city, hfile, not_lt.mpr hage]

/-- A concrete fresh-cache document. -/
def docW : CacheDoc :=
  { city := "Foo"
    hist_start := 24000
    hist_end := 24035
    forecast := [{ date := 24036, predicted_mm := 10, conf_int_lower := 1,
                   conf_int_upper := 20, tendencia := "Dentro da média histórica" }]
    generated_at := 0 }

/-- An environment holding a 3-day-old readable cache for `docW`. -/
def envW1 : Env :=
  { cacheFile := some (.ok docW)
    now := 3 * secondsPerDay
    db := .error .dbError
    fitPredict := .error .modelError
    writeFault := none }

/-- Witness for C1: on `envW1`, the 3-day-old cache is returned
as-is, no effects run. -/
theorem fresh_cache_returned_witness :
    generate_forecast_for_city envW1 "Foo" 12 false =
      .ok { result := some docW.forecast, dbLoaded := false,
            modelRun := false, cacheWritten := none } :=
  (fresh_cache_returned_stale_cache_regenerates envW1 "Foo" 12 docW rfl).1
    (by decide)

/-- C2: the trend label of a forecast point is exactly one of four
categories, determined by the historical same-calendar-month average
of the monthly series: no-reference iff the average is 0; otherwise
above iff the prediction strictly exceeds 1.15 times the average;
otherwise below iff it is strictly under 0.85 times the average;
otherwise within. (The labels are the source's Portuguese strings:
"Sem referência histórica" / "Acima da média histórica" /
"Abaixo da média histórica" / "Dentro da média histórica".) -/
theorem trend_label_classification
    (series : List (Nat × ℚ)) (month : Nat) (p : ℚ) :
    (get_trend series month p = "Sem referência histórica" ∨
     get_trend series month p = "Acima da média histórica" ∨
     get_trend series month p = "Abaixo da média histórica" ∨
     get_trend series month p = "Dentro da média histórica") ∧
    (get_trend series month p = "Sem referência histórica" ↔
      historicalMonthlyAvg series month = 0) ∧
    (historicalMonthlyAvg series month ≠ 0 →
      (get_trend series month p = "Acima da média histórica" ↔
        p > historicalMonthlyAvg series month * 1.15)) ∧
    (historicalMonthlyAvg series month ≠ 0 →
      ¬ p > historicalMonthlyAvg series month * 1.15 →
      (get_trend series month p = "Abaixo da média histórica" ↔
        p < historicalMonthlyAvg series month * 0.85)) ∧
    (historicalMonthlyAvg series month ≠ 0 →
      ¬ p > historicalMonthlyAvg series month * 1.15 →
      ¬ p < historicalMonthlyAvg series month * 0.85 →
      get_trend series month p = "Dentro da média histórica") := by
  by_cases h0 : historicalMonthlyAvg series month = 0
  · have hl : get_trend series month p = "Sem referência histórica" := by
      simp [get_trend, h0]
    refine ⟨Or.inl hl, ?_, fun hh => absurd h0 hh, fun hh => absurd h0 hh,
      fun hh => absurd h0 hh⟩
    rw [hl]
    simp [h0]
  · by_cases h1 : p > historicalMonthlyAvg series month * 1.15
    · have hl : get_trend series month p = "Acima da média histórica" := by
        simp [get_trend, h0, h1]
      refine ⟨Or.inr (Or.inl hl), ?_, fun _ => ?_, fun _ hn => absurd h1 hn,
        fun _ hn => absurd h1 hn⟩
      · rw [hl]
        simp [h0]
      · rw [hl]
        simp [h1]
    · by_cases h2 : p < historicalMonthlyAvg series month * 0.85
      · have hl : get_trend series month p = "Abaixo da média histórica" := by
          simp [get_trend, h0, h1, h2]
        refine ⟨Or.inr (Or.inr (Or.inl hl)), ?_, fun _ => ?_, fun _ _ => ?_,
          fun _ _ hn => absurd h2 hn⟩
        · rw [hl]
          simp [h0]
        · rw [hl]
          simp [h1]
        · rw [hl]
          simp [h2]
      · have hl : get_trend series month p = "Dentro da média histórica" := by
          simp [get_trend, h0, h1, h2]
        refine ⟨Or.inr (Or.inr (Or.inr hl)), ?_, fun _ => ?_, fun _ _ => ?_,
          fun _ _ _ => hl⟩
        · rw [hl]
          simp [h0]
        · rw [hl]
          simp [h1]
        · rw [hl]
          simp [h2]

/-- Witness for C2: over the one-point series with total 2 in
calendar month 1, a prediction of 10 exceeds 1.15 times the average
and is labeled above the historical average. -/
theorem trend_label_witness :
    get_trend [(24000, 2)] 1 10 = "Acima da média histórica" ∧
    historicalMonthlyAvg [(24000, 2)] 1 ≠ 0 :=
  have havg : historicalMonthlyAvg [(24000, 2)] 1 = 2 := by
    simp [historicalMonthlyAvg, monthOfIdx]
  ⟨((trend_label_classification [(24000, 2)] 1 10).2.2.1
      (by rw [havg]; norm_num)).mpr (by rw [havg]; norm_num),
    by rw [havg]; norm_num⟩

/-- Every row produced by the post-processing has non-negative
prediction and lower bound. -/
theorem applyCorrections_nonneg (series : List (Nat × ℚ)) (rows : List ForecastRow) :
    ∀ row ∈ applyCorrections series rows,
      0 ≤ row.predicted_mm ∧ 0 ≤ row.conf_int_lower := by
  intro row hr
  simp only [applyCorrections, List.mem_map] at hr
  obtain ⟨r, -, rfl⟩ := hr
  exact ⟨le_max_left 0 _, le_max_left 0 _⟩

/-- Shape of `regenerate`: either it failed softly, with no result
and no cache written, or every stage succeeded and both the result
and the written cache document carry the post-processed table. -/
theorem regenerate_shape (env : Env) (city_name : String) (n_months : Nat) :
    (regenerate env city_name n_months).result = none ∧
      (regenerate env city_name n_months).cacheWritten = none ∨
    ∃ series rows,
      rows = applyCorrections series
        (buildRows (seriesLast series + 1) n_months
          ((env.fitPredict.toOption.getD ([], [])).1)
          ((env.fitPredict.toOption.getD ([], [])).2)) ∧
      (regenerate env city_name n_months).result = some rows ∧
      (regenerate env city_name n_months).cacheWritten =
        some { city := city_name, hist_start := seriesFirst series,
               hist_end := seriesLast series, forecast := rows,
               generated_at := env.now } := by
  unfold regenerate
  cases hdb : env.db with
  | error f => simp [hdb]
  | ok records =>
    cases hl : load_and_prepare_data records city_name with
    | error e => simp [hdb, hl]
    | ok series =>
      cases hf : env.fitPredict with
      | error f => simp [hdb, hl, hf]
      | ok pc =>
        obtain ⟨forecast, conf_int⟩ := pc
        cases hw : env.writeFault with
        | some f => simp [hdb, hl, hf, hw]
        | none =>
          right
          refine ⟨series, _, rfl, ?_, ?_⟩ <;>
            simp [hdb, hl, hf, hw, Except.toOption]

/-- C3: on every regeneration, every `predicted_mm` and every
`conf_int_lower` of the returned table and of the persisted cache
document is at least 0; the post-processing replaces these two
columns exactly by their clip at 0 (so a negative raw model output
becomes exactly 0). -/
theorem regenerated_forecast_clamped
    (env : Env) (city_name : String) (n_months : Nat) :
    (∀ rows, (regenerate env city_name n_months).result = some rows →
      ∀ row ∈ rows, 0 ≤ row.predicted_mm ∧ 0 ≤ row.conf_int_lower) ∧
    (∀ doc, (regenerate env city_name n_months).cacheWritten = some doc →
      ∀ row ∈ doc.forecast, 0 ≤ row.predicted_mm ∧ 0 ≤ row.conf_int_lower) ∧
    (∀ series rows,
      (applyCorrections series rows).map ForecastRow.predicted_mm =
        rows.map (fun r => max 0 r.predicted_mm) ∧
      (applyCorrections series rows).map ForecastRow.conf_int_lower =
        rows.map (fun r => max 0 r.conf_int_lower)) := by
  refine ⟨?_, ?_, ?_⟩
  · intro rows hres
    rcases regenerate_shape env city_name n_months with ⟨hn, -⟩ | ⟨s, r, hr, hres2, -⟩
    · rw [hn] at hres
      exact absurd hres (by simp)
    · rw [hres2] at hres
      obtain rfl : rows = r := by simpa using hres.symm
      rw [hr]
      exact applyCorrections_nonneg _ _
  · intro doc hdoc
    rcases regenerate_shape env city_name n_months with ⟨-, hn⟩ | ⟨s, r, hr, -, hdoc2⟩
    · rw [hn] at hdoc
      exact absurd hdoc (by simp)
    · rw [hdoc2] at hdoc
      obtain rfl : doc = _ := by simpa using hdoc.symm
      simp only [hr]
      exact applyCorrections_nonneg _ _
  · intro series rows
    constructor <;> simp [applyCorrections, List.map_map, Function.comp]

/-- A database with two records for city "c" spanning exactly 36
months (the monthly resampling fills the gap), and a model returning
an empty raw forecast. -/
def envW3 : Env :=
  { cacheFile := none
    now := 0
    db := .ok [⟨⟨2000, 1, 1⟩, 0, "c", "SC", "A1"⟩,
               ⟨⟨2002, 12, 1⟩, 0, "c", "SC", "A1"⟩]
    fitPredict := .ok ([], [])
    writeFault := none }

/-- A raw forecast row with negative model outputs. -/
def rowNeg : ForecastRow :=
  { date := 24036, predicted_mm := -5, conf_int_lower := -3,
    conf_int_upper := 7, tendencia := "" }

/-- Witness for C3: a successful regeneration on `envW3` satisfies
the non-negativity bound, and post-processing maps the negative raw
row `rowNeg` through the clip at 0. -/
theorem regenerated_forecast_clamped_witness :
    (∀ row ∈ ([] : List ForecastRow),
      0 ≤ row.predicted_mm ∧ 0 ≤ row.conf_int_lower) ∧
    (applyCorrections [] [rowNeg]).map ForecastRow.predicted_mm =
      [rowNeg].map (fun r => max 0 r.predicted_mm) :=
  ⟨(regenerated_forecast_clamped envW3 "c" 0).1 [] rfl,
   ((regenerated_forecast_clamped envW3 "c" 0).2.2 [] [rowNeg]).1⟩

/-- C4: when a city's stored history resamples to fewer than 36
monthly points, `load_and_prepare_data` fails with an
InsufficientData error naming the required count (36) and the actual
count, the regeneration path of `generate_forecast_for_city`
converts it to a soft no-result return (never an exception), and the
POST forecast endpoint answers 400. -/
theorem insufficient_history_soft_failure
    (env : Env) (records : List DailyRecord) (city_name instance_path : String)
    (hdb : env.db = .ok records)
    (hne : records.filter (fun r => pyLower r.cidade == pyLower city_name) ≠ [])
    (hlen : (resampleMS ((records.filter
        (fun r => pyLower r.cidade == pyLower city_name)).map
          (fun r => (r.data, r.precipitacao_mm)))).length < MINIMUM_DATA_POINTS) :
    load_and_prepare_data records city_name =
      .error (.insufficientData MINIMUM_DATA_POINTS
        (resampleMS ((records.filter
          (fun r => pyLower r.cidade == pyLower city_name)).map
            (fun r => (r.data, r.precipitacao_mm)))).length) ∧
    (∀ n_months, regenerate env city_name n_months =
      { result := none, dbLoaded := true, modelRun := false, cacheWritten := none }) ∧
    (create_or_update_forecast env instance_path city_name).1 = 400 := by
  have hload : load_and_prepare_data records city_name =
      .error (.insufficientData MINIMUM_DATA_POINTS
        (resampleMS ((records.filter
          (fun r => pyLower r.cidade == pyLower city_name)).map
            (fun r => (r.data, r.precipitacao_mm)))).length) := by
    unfold load_and_prepare_data
    rw [if_neg (by simpa [List.isEmpty_iff] using hne), if_pos hlen]
  have hreg : ∀ n_months, regenerate env city_name n_months =
      { result := none, dbLoaded := true, modelRun := false, cacheWritten := none } := by
    intro n_months
    unfold regenerate
    simp [hdb, hload]
  refine ⟨hload, hreg, ?_⟩
  unfold create_or_update_forecast generate_forecast_for_city
  simp [hreg]

/-- An environment whose database holds a single rainfall record for
city "c" (one monthly point after resampling). -/
def envW4 : Env :=
  { cacheFile := none
    now := 0
    db := .ok [⟨⟨2000, 1, 1⟩, 3, "c", "SC", "A1"⟩]
    fitPredict := .ok ([], [])
    writeFault := none }

/-- Witness for C4: one record gives a 1-point monthly series, so
loading fails with InsufficientData (36 required, 1 found), the
service returns no result, and the endpoint answers 400. -/
theorem insufficient_history_witness :
    load_and_prepare_data [⟨⟨2000, 1, 1⟩, 3, "c", "SC", "A1"⟩] "c" =
      .error (.insufficientData MINIMUM_DATA_POINTS
        (resampleMS (([⟨⟨2000, 1, 1⟩, 3, "c", "SC", "A1"⟩].filter
          (fun r : DailyRecord => pyLower r.cidade == pyLower "c")).map
            (fun r => (r.data, r.precipitacao_mm)))).length) ∧
    (∀ n_months, regenerate envW4 "c" n_months =
      { result := none, dbLoaded := true, modelRun := false, cacheWritten := none }) ∧
    (create_or_update_forecast envW4 "inst" "c").1 = 400 :=
  insufficient_history_soft_failure envW4 _ "c" "inst" rfl
    (by decide) (by decide)

/-- Unfolding of `bulk_upsert` over the first batch row. -/
theorem bulk_upsert_cons (store : List DailyRecord) (r : DailyRecord)
    (rs : List DailyRecord) :
    bulk_upsert store (r :: rs) =
      bulk_upsert
        (if store.any (fun s => sameKey s r) then store else store ++ [r]) rs := rfl

/-- C5: the store keeps at most one record per (date, station_code):
the bulk upsert preserves pairwise key-distinctness; and a batch
whose every row collides with a stored key leaves the store
unchanged in count and content (rows silently skipped, nothing
overwritten, no error — `bulk_upsert` is total). -/
theorem upsert_unique_and_conflicts_skipped
    (store rows : List DailyRecord)
    (huniq : store.Pairwise (fun a b => sameKey a b = false)) :
    (bulk_upsert store rows).Pairwise (fun a b => sameKey a b = false) ∧
    ((∀ r ∈ rows, ∃ s ∈ store, sameKey s r = true) →
      bulk_upsert store rows = store) := by
  constructor
  · induction rows generalizing store with
    | nil => exact huniq
    | cons r rs ih =>
      rw [bulk_upsert_cons]
      by_cases h : store.any (fun s => sameKey s r) = true
      · rw [if_pos h]
        exact ih store huniq
      · rw [if_neg h]
        refine ih _ ?_
        rw [List.pairwise_append]
        refine ⟨huniq, by simp, ?_⟩
        intro a ha b hb
        simp only [List.mem_singleton] at hb
        subst hb
        have hall := List.any_eq_false.mp (show _ = false by simpa using h)
        simpa using hall a ha
  · intro hconf
    induction rows with
    | nil => rfl
    | cons r rs ih =>
      rw [bulk_upsert_cons]
      have hany : store.any (fun s => sameKey s r) = true := by
        obtain ⟨s, hs, hk⟩ := hconf r (by simp)
        exact List.any_eq_true.mpr ⟨s, hs, hk⟩
      rw [if_pos hany]
      exact ih fun x hx => hconf x (by simp [hx])

/-- A stored record and an incoming batch row sharing its
(date, station_code) key. -/
def recStored : DailyRecord := ⟨⟨2001, 5, 3⟩, 7, "c", "SC", "A1"⟩

/-- Witness for C5: upserting two rows that both collide with the
stored record's key leaves the one-record store unchanged. -/
theorem upsert_conflicts_skipped_witness :
    (bulk_upsert [recStored]
        [⟨⟨2001, 5, 3⟩, 9, "c", "SC", "A1"⟩,
         ⟨⟨2001, 5, 3⟩, 11, "d", "RS", "A1"⟩]).Pairwise
      (fun a b => sameKey a b = false) ∧
    ((∀ r ∈ [⟨⟨2001, 5, 3⟩, 9, "c", "SC", "A1"⟩,
             (⟨⟨2001, 5, 3⟩, 11, "d", "RS", "A1"⟩ : DailyRecord)],
        ∃ s ∈ [recStored], sameKey s r = true) →
      bulk_upsert [recStored]
        [⟨⟨2001, 5, 3⟩, 9, "c", "SC", "A1"⟩,
         ⟨⟨2001, 5, 3⟩, 11, "d", "RS", "A1"⟩] = [recStored]) :=
  upsert_unique_and_conflicts_skipped [recStored]
    [⟨⟨2001, 5, 3⟩, 9, "c", "SC", "A1"⟩,
     ⟨⟨2001, 5, 3⟩, 11, "d", "RS", "A1"⟩] (by decide)

/-- An environment whose cache file exists but fails to parse (the
cache-reading block of `generate_forecast_for_city` precedes its
`try`, so this fault is raised before any handler is installed). -/
def envBadCache : Env :=
  { cacheFile := some (.error .jsonError)
    now := 0
    db := .ok []
    fitPredict := .ok ([], [])
    writeFault := none }

/-- C6 counterexample: with a corrupt existing cache file and
`force_regenerate` false, `generate_forecast_for_city` propagates
the fault to its caller instead of returning a soft no-result. -/
theorem corrupt_cache_read_propagates :
    generate_forecast_for_city envBadCache "Florianopolis" 12 false =
      .error Fault.jsonError := rfl

/-- One of the stages of the regeneration `try` raises: the database
query, the history load/validation, the model search/forecast, or
the cache write. -/
def regenFault (env : Env) (city_name : String) : Prop :=
  (∃ f, env.db = .error f) ∨
  (∃ records e, env.db = .ok records ∧
    load_and_prepare_data records city_name = .error e) ∨
  (∃ f, env.fitPredict = .error f) ∨
  (∃ f, env.writeFault = some f)

/-- A stage strictly before the cache write raises. -/
def preWriteFault (env : Env) (city_name : String) : Prop :=
  (∃ f, env.db = .error f) ∨
  (∃ records e, env.db = .ok records ∧
    load_and_prepare_data records city_name = .error e) ∨
  (∃ f, env.fitPredict = .error f)

/-- C6 amended: as long as the call does not read a faulty existing
cache file — regeneration forced, or the cache file absent or
readable — `generate_forecast_for_city` returns normally (no
exception), and every fault during regeneration is caught and
yields the soft no-result return with no complete cache document
persisted. A fault before the cache-write stage leaves the cache
file untouched; but a fault during the cache write itself, though
caught, strikes after `open(cache_path, 'w')` has truncated the
file, and leaves a partial cache file — and only a write-stage
fault can do so. (A fault while reading an existing cache file
propagates instead: see `corrupt_cache_read_propagates`.) -/
theorem faults_inside_try_yield_no_result
    (env : Env) (city_name : String) (n_months : Nat) (force_regenerate : Bool)
    (hc : force_regenerate = true ∨ ∀ f, env.cacheFile ≠ some (.error f)) :
    (∃ r, generate_forecast_for_city env city_name n_months force_regenerate =
      .ok r) ∧
    (regenFault env city_name →
      (regenerate env city_name n_months).result = none ∧
      (regenerate env city_name n_months).cacheWritten = none) ∧
    (preWriteFault env city_name →
      (regenerate env city_name n_months).cachePartial = false) ∧
    ((regenerate env city_name n_months).cachePartial = true →
      ∃ f, env.writeFault = some f) ∧
    (∀ records series pred conf f,
      env.db = .ok records →
      load_and_prepare_data records city_name = .ok series →
      env.fitPredict = .ok (pred, conf) →
      env.writeFault = some f →
      (regenerate env city_name n_months).result = none ∧
      (regenerate env city_name n_months).cachePartial = true) := by
  have hok : ∃ r,
      generate_forecast_for_city env city_name n_months force_regenerate =
        .ok r := by
    unfold generate_forecast_for_city
    cases force_regenerate with
    | true => exact ⟨regenerate env city_name n_months, rfl⟩
    | false =>
      rcases hc with hc | hc
      · exact absurd hc (by simp)
      cases hfile : env.cacheFile with
      | none => exact ⟨regenerate env city_name n_months, rfl⟩
      | some read =>
        cases read with
        | error f => exact absurd hfile (hc f)
        | ok cache_data =>
          by_cases hage : env.now - cache_data.generated_at <
              CACHE_LIFETIME_DAYS * secondsPerDay
          · exact ⟨{ result := some cache_data.forecast, dbLoaded := false,
                     modelRun := false, cacheWritten := none }, by simp [hage]⟩
          · exact ⟨regenerate env city_name n_months, by simp [hage]⟩
  refine ⟨hok, ?_⟩
  unfold regenerate regenFault preWriteFault
  cases hdb : env.db with
  | error f =>
    refine ⟨fun _ => by simp, fun _ => by simp, by simp, ?_⟩
    intro records series pred conf f2 hrec hload hfit hw2
    exact absurd hrec (by simp)
  | ok records =>
    cases hl : load_and_prepare_data records city_name with
    | error e =>
      refine ⟨fun _ => by simp [hl], fun _ => by simp [hl], by simp [hl], ?_⟩
      intro records2 series pred conf f2 hrec hload hfit hw2
      obtain rfl : records = records2 := by simpa using hrec
      rw [hl] at hload
      exact absurd hload (by simp)
    | ok series =>
      cases hf : env.fitPredict with
      | error f =>
        refine ⟨fun _ => by simp [hl], fun _ => by simp [hl], by simp [hl], ?_⟩
        intro records2 series2 pred conf f2 hrec hload hfit hw2
        exact absurd hfit (by simp)
      | ok pc =>
        obtain ⟨forecast, conf_int⟩ := pc
        cases hw : env.writeFault with
        | some f =>
          refine ⟨fun _ => by simp [hl], ?_, fun _ => ⟨f, rfl⟩, ?_⟩
          · intro hpre
            rcases hpre with ⟨f2, hf2⟩ | ⟨records2, e2, hrec2, hload2⟩ | ⟨f2, hf2⟩
            · exact absurd hf2 (by simp)
            · obtain rfl : records = records2 := by simpa using hrec2
              rw [hl] at hload2
              exact absurd hload2 (by simp)
            · exact absurd hf2 (by simp)
          · intro records2 series2 pred2 conf2 f2 hrec hload hfit hw2
            exact ⟨by simp [hl], by simp [hl]⟩
        | none =>
          refine ⟨?_, fun _ => by simp [hl], ?_, ?_⟩
          · intro hfault
            rcases hfault with ⟨f2, hf2⟩ | ⟨records2, e2, hrec2, hload2⟩ |
              ⟨f2, hf2⟩ | ⟨f2, hf2⟩
            · exact absurd hf2 (by simp)
            · obtain rfl : records = records2 := by simpa using hrec2
              rw [hl] at hload2
              exact absurd hload2 (by simp)
            · exact absurd hf2 (by simp)
            · exact absurd hf2 (by simp)
          · intro hpart
            exact absurd hpart (by simp [hl])
          · intro records2 series2 pred2 conf2 f2 hrec hload hfit hw2
            exact absurd hw2 (by simp)

/-- Records for city "c" spanning exactly 36 months. -/
def recsW6 : List DailyRecord :=
  [⟨⟨2000, 1, 1⟩, 0, "c", "SC", "A1"⟩, ⟨⟨2002, 12, 1⟩, 0, "c", "SC", "A1"⟩]

/-- An environment where every stage up to the cache write succeeds
and the cache write itself faults mid-dump. -/
def envW6 : Env :=
  { cacheFile := none
    now := 0
    db := .ok recsW6
    fitPredict := .ok ([], [])
    writeFault := some .ioError }

/-- Witness for C6 (amended): on `envW6` the call returns normally,
the caught write fault yields the no-result return with no complete
document persisted, and the truncated partial cache file remains. -/
theorem faults_inside_try_witness :
    (∃ r, generate_forecast_for_city envW6 "c" 0 false = .ok r) ∧
    (regenerate envW6 "c" 0).result = none ∧
    (regenerate envW6 "c" 0).cacheWritten = none ∧
    (regenerate envW6 "c" 0).cachePartial = true :=
  have hmain := faults_inside_try_yield_no_result envW6 "c" 0 false
    (Or.inr (by intro f h; simp [envW6] at h))
  have hwrite := hmain.2.2.2.2 recsW6 _ [] [] .ioError rfl rfl rfl rfl
  ⟨hmain.1, hwrite.1,
    (hmain.2.1 (Or.inr (Or.inr (Or.inr ⟨.ioError, rfl⟩)))).2, hwrite.2⟩

/-- A header whose only metadata marker sits on line index 9 (the
tenth line). -/
def linesMarkerAt9 : List String :=
  ["x0", "x1", "x2", "x3", "x4", "x5", "x6", "x7", "x8", "UF:;SC;"]

/-- C7 counterexample: the metadata loop tests `i > 8` only after
scanning line `i`, so the marker on line index 9 is extracted — the
scan does not stop after line index 8. -/
theorem marker_on_line_nine_extracted :
    scanMeta linesMarkerAt9 0 {} =
      .ok { cidade := none, estado := some "SC", estacao_codigo := none } := by
  decide

/-- C7 amended, helper: starting from line index `i`, the scan never
looks past line index 9. -/
theorem scanMeta_stops_after_ten (pre suf : List String) :
    ∀ (i : Nat) (m : Metadata), pre.length + i = 10 → i ≤ 9 →
      scanMeta (pre ++ suf) i m = scanMeta pre i m := by
  induction pre with
  | nil =>
    intro i m hlen hi
    exact absurd hlen (by simpa using (by omega : ¬ i = 10))
  | cons line rest ih =>
    intro i m hlen hi
    have hlen2 : rest.length + (i + 1) = 10 := by
      simp only [List.length_cons] at hlen
      omega
    simp only [List.cons_append, scanMeta]
    cases scanMetaLine m line with
    | error e => rfl
    | ok m1 =>
      simp only
      by_cases hbreak : i > 8
      · rw [if_pos hbreak, if_pos hbreak]
      · rw [if_neg hbreak, if_neg hbreak]
        exact ih (i + 1) m1 hlen2 (by omega)

/-- C7 amended: metadata extraction examines exactly the first 10
lines (indices 0 through 9): the scan of a file is the scan of its
first 10 lines, so a marker on any line with index greater than 9 is
never extracted. -/
theorem metadata_scan_reads_first_ten_lines (pre suf : List String)
    (hlen : pre.length = 10) :
    ∀ m : Metadata, scanMeta (pre ++ suf) 0 m = scanMeta pre 0 m :=
  fun m => scanMeta_stops_after_ten pre suf 0 m (by omega) (by omega)

/-- Witness for C7 (amended): appending a marker line after a
10-line header leaves the extracted metadata unchanged. -/
theorem metadata_scan_first_ten_witness :
    scanMeta (linesMarkerAt9 ++ ["ESTAÇÃO:;OCULTA;"]) 0 {} =
      scanMeta linesMarkerAt9 0 {} :=
  metadata_scan_reads_first_ten_lines linesMarkerAt9 ["ESTAÇÃO:;OCULTA;"]
    (by decide) {}

/-- C8: the GET forecast endpoint returns the stored cache document
unchanged with status 200 whenever the city's cache file exists —
for every document, of any generation timestamp, since the route
takes no clock and never inspects `generated_at` — and returns 404
with guidance to trigger generation when no cache file exists. In
neither case does it trigger generation (`get_forecast` invokes no
part of the forecast service). -/
theorem get_forecast_serves_cache_verbatim
    (fs : String → Option CacheDoc) (instance_path city_name : String) :
    (∀ doc, fs (cachePathOf instance_path city_name) = some doc →
      get_forecast fs instance_path city_name = (200, .doc doc)) ∧
    (fs (cachePathOf instance_path city_name) = none →
      get_forecast fs instance_path city_name =
        (404, .info "Previsão não encontrada." (guidanceMessage city_name))) := by
  constructor
  · intro doc hdoc
    simp [get_forecast, hdoc]
  · intro hnone
    simp [get_forecast, hnone]

/-- A file system holding one stale cache document (generated far in
the past) for the normalized name of city "Foo Bar". -/
def fsW : String → Option CacheDoc := fun p =>
  if p = "inst/foo_bar_forecast.json" then
    some { docW with generated_at := -10 * 365 * secondsPerDay }
  else none

/-- Witness for C8: the ten-year-old cached document is served
verbatim with 200, and an unknown city gets the 404 guidance. -/
theorem get_forecast_witness :
    get_forecast fsW "inst" "Foo Bar" =
      (200, .doc { docW with generated_at := -10 * 365 * secondsPerDay }) ∧
    get_forecast fsW "inst" "Nowhere" =
      (404, .info "Previsão não encontrada." (guidanceMessage "Nowhere")) :=
  ⟨(get_forecast_serves_cache_verbatim fsW "inst" "Foo Bar").1 _ (by decide),
   (get_forecast_serves_cache_verbatim fsW "inst" "Nowhere").2 (by decide)⟩

/-- C9: the -9999 sentinel is replaced by 0 before daily
aggregation: a -9999 reading (and a missing cell) cleans to 0 while
any other reading passes through unchanged, the precipitation column
fed to the daily aggregation is exactly the source column mapped
through that cleaning, so no cleaned reading is the sentinel; and
when the remaining source readings are non-negative (readings are
rainfall amounts, with -9999 the documented missing-value encoding),
every value of the consolidated output is non-negative, so -9999
never appears there either. -/
theorem sentinel_replaced_before_aggregation (files : List (List BodyRow)) :
    cleanReading (.num (-9999)) = 0 ∧
    cleanReading .missing = 0 ∧
    (∀ q : ℚ, q ≠ -9999 → cleanReading (.num q) = q) ∧
    (∀ cell, cleanReading cell ≠ (-9999 : ℚ)) ∧
    (∀ body : List BodyRow,
      (cleanRows body).map CleanRow.precipitacao_mm =
        body.map (fun r => cleanReading r.precip)) ∧
    ((∀ body ∈ files, ∀ row ∈ body, ∀ q : ℚ,
        row.precip = .num q → q = -9999 ∨ 0 ≤ q) →
      ∀ p ∈ consolidate files, 0 ≤ p.2 ∧ p.2 ≠ (-9999 : ℚ)) := by
  refine ⟨rfl, rfl, fun q hq => by simp [cleanReading, hq], ?_, ?_, ?_⟩
  · intro cell
    cases cell with
    | missing => norm_num [cleanReading]
    | num q =>
      by_cases hq : q = -9999
      · norm_num [cleanReading, hq]
      · simp [cleanReading, hq]
  · intro body
    simp [cleanRows, List.map_map, Function.comp]
  · intro hwf p hp
    simp only [consolidate, processFileBody, List.mem_flatten, List.mem_map] at hp
    obtain ⟨-, ⟨body, hbody, rfl⟩, hp⟩ := hp
    simp only [aggregateDaily, List.mem_map] at hp
    obtain ⟨d, -, rfl⟩ := hp
    have hnn : (0 : ℚ) ≤
        ((((cleanRows body).filter (fun r => r.data == d)).map
          (fun r => r.precipitacao_mm)).sum) := by
      apply List.sum_nonneg
      intro x hx
      simp only [List.mem_map, List.mem_filter] at hx
      obtain ⟨r, ⟨hr, -⟩, rfl⟩ := hx
      simp only [cleanRows, List.mem_map] at hr
      obtain ⟨r0, hr0, rfl⟩ := hr
      cases hcell : r0.precip with
      | missing => simp [cleanReading]
      | num q =>
        rcases hwf body hbody r0 hr0 q hcell with hq | hq
        · simp [cleanReading, hq]
        · by_cases hs : q = -9999
          · simp [cleanReading, hs]
          · simpa [cleanReading, hs] using hq
    refine ⟨hnn, ?_⟩
    intro hcontra
    replace hcontra : (((cleanRows body).filter (fun r => r.data == d)).map
        (fun r => r.precipitacao_mm)).sum = (-9999 : ℚ) := hcontra
    rw [hcontra] at hnn
    norm_num at hnn

/-- A source body with a -9999 sentinel, a missing cell and an
ordinary reading, all on one date. -/
def bodyW : List BodyRow :=
  [⟨⟨2010, 1, 5⟩, .num (-9999)⟩, ⟨⟨2010, 1, 5⟩, .missing⟩,
   ⟨⟨2010, 1, 5⟩, .num 4⟩]

/-- Witness for C9: on `bodyW` the cleaned column is [0, 0, 4], and
every consolidated value is non-negative and differs from -9999. -/
theorem sentinel_replaced_witness :
    (cleanRows bodyW).map CleanRow.precipitacao_mm =
      bodyW.map (fun r => cleanReading r.precip) ∧
    ∀ p ∈ consolidate [bodyW], 0 ≤ p.2 ∧ p.2 ≠ (-9999 : ℚ) :=
  ⟨(sentinel_replaced_before_aggregation [bodyW]).2.2.2.2.1 bodyW,
   (sentinel_replaced_before_aggregation [bodyW]).2.2.2.2.2 (by
      intro body hbody row hrow q hq
      simp only [List.mem_singleton] at hbody
      subst hbody
      simp only [bodyW, List.mem_cons, List.mem_singleton,
        List.not_mem_nil, or_false] at hrow
      rcases hrow with rfl | rfl | rfl
      · exact Or.inl (show (-9999 : ℚ) = q by simpa using hq).symm
      · simp at hq
      · refine Or.inr ?_
        rw [← show (4 : ℚ) = q by simpa using hq]
        norm_num)⟩

end LagoAzul
